import Mathlib

/-!
Shallow embedding of the request-handling and retrieval core of the TikitAI
backend, together with theorems settling the specification claims about it.

The definitions below are transcribed from the Python source:
  * `services/vector_service.py`  (document splitting, vector-store service)
  * `services/rag_service.py`     (RAG pipeline: retrieve / generate / ask)
  * `routers/chat_router.py`      (chat endpoint validation and persistence)
  * `routers/data_router.py`      (sync / unsync, ClickUp file serialization)
  * `auth.py` and `routers/auth_router.py` (refresh-token lifecycle)

Python strings are modelled by `String` (with Python's `lower` / `strip` /
`split` re-implemented on character lists so that they compute), similarity
scores by `ℚ` (the comparisons the claims mention are exact at the listed
values), timestamps by `Nat`, and database tables by lists of rows.

Python call semantics matter in several places: the source calls methods
with arguments the callee does not declare, or calls attributes that do not
exist; such a call raises `TypeError` / `AttributeError` in Python, and the
embedding models the outcome of those calls explicitly (as `Except` values
computed from the callee's declared parameter list) instead of pretending
the call succeeds.
-/

namespace Tikit

/-! ## Python string primitives -/

/-- Whitespace test used by Python's `strip` and argument-less `split`. -/
def isWs (c : Char) : Bool := c.isWhitespace

/-- Decide whether `needle` is a leading segment of `hay` (on character
lists); helper for Python's substring test. -/
def leadsList : List Char → List Char → Bool
  | [], _ => true
  | _ :: _, [] => false
  | a :: as, b :: bs => a == b && leadsList as bs

/-- Decide whether `needle` occurs contiguously inside `hay` (on character
lists). -/
def hasSubList (needle : List Char) : List Char → Bool
  | [] => needle.isEmpty
  | b :: bs => leadsList needle (b :: bs) || hasSubList needle bs

/-- Python's `needle in hay` substring test for strings. -/
def containsSub (hay needle : String) : Bool :=
  hasSubList needle.data hay.data

/-- ASCII lower-casing of one character (Python `str.lower` on the
identifiers appearing in this code base, which are ASCII). -/
def pyCharLower (c : Char) : Char :=
  if 65 ≤ c.toNat ∧ c.toNat ≤ 90 then Char.ofNat (c.toNat + 32) else c

/-- Python `str.lower()`. -/
def pyLower (s : String) : String :=
  ⟨s.data.map pyCharLower⟩

/-- Strip leading and trailing whitespace from a character list. -/
def pyStripChars (l : List Char) : List Char :=
  ((l.dropWhile isWs).reverse.dropWhile isWs).reverse

/-- Python `str.strip()`. -/
def pyStrip (s : String) : String :=
  ⟨pyStripChars s.data⟩

/-- The normalization `question.lower().strip()` performed by
`RAGService._retrieve`. -/
def pyNormalize (s : String) : String :=
  pyStrip (pyLower s)

/-- Accumulator-based splitting on whitespace runs (Python `str.split()`
with no separator). -/
def pySplitWsAux : List Char → List Char → List (List Char)
  | acc, [] => if acc.isEmpty then [] else [acc.reverse]
  | acc, c :: cs =>
      if isWs c then
        if acc.isEmpty then pySplitWsAux [] cs else acc.reverse :: pySplitWsAux [] cs
      else
        pySplitWsAux (c :: acc) cs

/-- Python `str.split()` with no separator: the whitespace-delimited
tokens of `s`. -/
def pyTokens (s : String) : List String :=
  (pySplitWsAux [] s.data).map fun l => ⟨l⟩

/-- Fuelled splitting on a separator substring: one unit of fuel per
consumed character suffices, so fuel `length + 1` makes the fallback
unreachable. -/
def pySplitOnFuel (sep : List Char) : Nat → List Char → List (List Char)
  | 0, l => [l]
  | _ + 1, [] => [[]]
  | n + 1, c :: cs =>
      if !sep.isEmpty && leadsList sep (c :: cs) then
        [] :: pySplitOnFuel sep n ((c :: cs).drop sep.length)
      else
        match pySplitOnFuel sep n cs with
        | [] => [[c]]
        | p :: ps => (c :: p) :: ps

/-- Python `s.split(sep)` for a non-empty separator string. -/
def pySplitOn (s sep : String) : List String :=
  (pySplitOnFuel sep.data (s.data.length + 1) s.data).map fun l => ⟨l⟩

/-! ## Documents and chunks

`langchain_core.documents.Document`: a page content plus a string-keyed
metadata dictionary (modelled as an association list).  `Document(...)`
constructed without a `metadata` argument gets the empty dictionary. -/

structure Document where
  page_content : String
  metadata : List (String × String)
deriving DecidableEq, Repr, Inhabited

/-- Concatenate the page contents with `"\n"` (line 231 of
`vector_service.py`: `"\n".join([doc.page_content for doc in docs])`). -/
def joinContents : List Document → String
  | [] => ""
  | [d] => d.page_content
  | d :: ds => d.page_content ++ "\n" ++ joinContents ds

/-- `VectorStoreService.process_documents_for_embedding(docs, file_paths)`
(vector_service.py lines 223-256).  Each emitted chunk is constructed as
`Document(page_content=...)`, i.e. with empty metadata. -/
def process_documents_for_embedding (docs : List Document) (file_paths : List String) :
    List Document :=
  if docs.isEmpty then []
  else
    let raw_text := joinContents docs
    if file_paths.any (fun p => containsSub (pyLower p) "_docs.txt") ||
       file_paths.any (fun p => containsSub (pyLower p) "_docs.md") then
      ((pySplitOn raw_text "---").map pyStrip).filterMap fun chunk =>
        if chunk ≠ "" then some ⟨chunk, []⟩ else none
    else if file_paths.any (fun p => containsSub (pyLower p) "clickup_") then
      docs.filterMap fun d =>
        if pyStrip d.page_content ≠ "" then some ⟨pyStrip d.page_content, []⟩ else none
    else
      ((pySplitOn raw_text "Issue").filterMap fun chunk =>
        if pyStrip chunk ≠ "" then some ("Issue" ++ pyStrip chunk) else none).map
        fun chunk => ⟨chunk, []⟩

end Tikit

/-! ## The vector-store service surface (vector_service.py)

Claims C1 and C4 turn on Python call semantics: which parameters the
service methods declare, and which attributes exist on the service object.
Both are transcribed here from the class definition. -/

namespace Tikit

/-- The names of the methods defined on `VectorStoreService`
(vector_service.py lines 24-352). -/
def vectorStoreServiceMethods : List String :=
  ["save_vector_store", "load_vector_store", "load_documents_from_data_folder",
   "embed_datasource", "embed_content_string", "add_documents",
   "similarity_search_with_score", "reset_vector_store", "get_vector_store_info"]

/-- The parameters (besides `self`) declared by
`VectorStoreService.similarity_search_with_score` (line 306):
`(self, query: str, k: Optional[int] = None)`. -/
def similaritySearchWithScoreParams : List String := ["query", "k"]

/-- The parameters (besides `self`) declared by
`VectorStoreService.embed_content_string` (line 271):
`(self, content: str, source_reference: str)`. -/
def embedContentStringParams : List String := ["content", "source_reference"]

/-- A Python call raises `TypeError` unless every keyword argument names a
declared parameter and the positional arguments fit the parameter list. -/
def pyCallAccepted (declaredParams positionalArgs keywordArgs : List String) : Bool :=
  decide (positionalArgs.length ≤ declaredParams.length) &&
  keywordArgs.all (fun kw => declaredParams.contains kw) &&
  keywordArgs.all (fun kw => !(declaredParams.take positionalArgs.length).contains kw)

/-- `settings.similarity_search_k` (config/settings.py line 39). -/
def similarity_search_k : Nat := 3

/-! ## RAGService._retrieve (rag_service.py lines 145-307) -/

/-- The `static_responses` dictionary (lines 158-178), keys and values
exactly as they appear in the source. -/
def staticResponses : List (String × String) :=
  [("hello", "Hey there! 👋"),
   ("hi", "Hey!, I\x27m Aidly, your friendly support specialist at DATAFIRST! 😊. How can I assist you today?"),
   ("hey", "Hey!, I\x27m Aidly, your friendly support specialist at DATAFIRST! 😊. How can I assist you today?"),
   ("how can i change the supervisor of a zone?", "To change the supervisor of a zone, you can navigate to the zone settings in your Admin application and select a new supervisor from the list of available users. If you need more detailed instructions, please let me know!"),
   ("where can i find the objective statistics report?", "You can find the Objective Statistics Report in the statistics section of your Admin application. By choosing the type of statistics **Objective** and then selecting the desired parameters, you can generate the report. If you need further assistance, feel free to ask! 😊"),
   ("good morning", "Good morning! Hope you\x27re having a great day!"),
   ("good afternoon", "Good afternoon! What\x27s up?"),
   ("good evening", "Good evening!"),
   ("what\x27s up", "Hey! Just here to help you out. What do you need?"),
   ("how are you", "I\x27m doing great, thanks for asking! How can I help you today?"),
   ("who are you", "I\x27m Aidly, your friendly support specialist at DATAFIRST! 😊"),
   ("what can you do", "I can help you find information from your documents and answer questions about your workspace. Just ask me anything!"),
   ("help", "Sure thing! I\x27m here to help you find information. Try asking me about your documents or any specific topic you need help with."),
   ("test", "Test successful! I\x27m working perfectly. What would you like to know?")]

/-- The key list of `static_responses`. -/
def staticResponseKeys : List String := staticResponses.map Prod.fst

/-- The greeting fallback list (lines 202-205). -/
def greetings : List String :=
  ["hey", "hi", "hello", "good morning", "good afternoon",
   "good evening", "what\x27s up", "how are you", "sup"]

/-- The condition guarding the greeting short-circuit (line 207):
`any(greeting in question for greeting in greetings) and
len(question.split()) <= 3`, where `question` is already normalized. -/
def greetingShortCircuit (question : String) : Bool :=
  greetings.any (fun g => containsSub question g) && decide ((pyTokens question).length ≤ 3)

/-- One entry of `retrieved_docs_info`. -/
structure DocInfo where
  doc_id : String
  doc : String
  score : ℚ
  source : String
  workspace_id : String
deriving DecidableEq, Repr

/-- The result assembled by `_retrieve`; `searchAttempted` records whether
control reached the `similarity_search_with_score` call inside the `try`
block (as opposed to one of the two short-circuit returns). -/
structure RetrieveResult where
  context : List Document
  retrieved_docs_info : List DocInfo
  searchAttempted : Bool
deriving Repr

/-- Metadata lookup with the default used by the source:
`doc.metadata.get(key, "unknown")`. -/
def metaGetD (d : Document) (key : String) : String :=
  match d.metadata.lookup key with
  | some v => v
  | none => "unknown"

/-- The per-hit processing loop of `_retrieve` (lines 262-289): hits with
`score > 0.6` join the context; every hit is recorded in
`retrieved_docs_info`. -/
def processHits : List (Document × ℚ) → List Document × List DocInfo
  | [] => ([], [])
  | (doc, score) :: rest =>
      let (ctx, infos) := processHits rest
      let ctx := if score > 6/10 then doc :: ctx else ctx
      (ctx, { doc_id := metaGetD doc "_id", doc := doc.page_content, score := score,
              source := metaGetD doc "source",
              workspace_id := metaGetD doc "workspace_id" } :: infos)

/-- The static document injected by the greeting fallback (lines 210-213). -/
def greetingDoc : Document :=
  ⟨"Hey! What can I help you with today?", [("source", "static_response"), ("type", "greeting")]⟩

/-- `RAGService._retrieve` (lines 145-307).  `searchFn` stands for the
body of `VectorStoreService.similarity_search_with_score` — the embedding
similarity search itself is an external computation — but the call site
(lines 252-256) passes the keyword argument `metadata_filter`, which that
method does not declare, so the call only goes through if
`pyCallAccepted` holds; otherwise it raises `TypeError`, which the
enclosing `try` turns into the empty result (lines 299-307). -/
def retrieve (searchFn : String → Nat → List (Document × ℚ))
    (rawQuestion : String) (_workspace_id : Option Nat) : RetrieveResult :=
  let question := pyNormalize rawQuestion
  match staticResponses.lookup question with
  | some response =>
    -- lines 181-199: exact static-response match (context is the canned doc)
    { context := [⟨response, [("source", "static_response"), ("type", "greeting")]⟩],
      retrieved_docs_info :=
        [{ doc_id := "static", doc := response, score := 1, source := "static_response",
           workspace_id := "demo" }],
      searchAttempted := false }
  | none =>
    if greetingShortCircuit question then
    -- lines 207-224: greeting fallback
    { context := [greetingDoc],
      retrieved_docs_info :=
        [{ doc_id := "static_greeting", doc := greetingDoc.page_content, score := 1,
           source := "static_response", workspace_id := "demo" }],
      searchAttempted := false }
  else
    -- lines 226-307: the try block around translation and vector search.
    -- The call passes positional `search_question` plus keywords `k` and
    -- `metadata_filter` (the latter always, even when the filter is None).
    let callResult : Except String (List (Document × ℚ)) :=
      if pyCallAccepted similaritySearchWithScoreParams ["query"] ["k", "metadata_filter"] then
        Except.ok (searchFn rawQuestion similarity_search_k)
      else
        Except.error "TypeError: unexpected keyword argument metadata_filter"
    match callResult with
    | Except.ok hits =>
        let (ctx, infos) := processHits hits
        { context := ctx, retrieved_docs_info := infos, searchAttempted := true }
    | Except.error _ =>
        -- lines 299-307: `except Exception` returns the empty result
        { context := [], retrieved_docs_info := [], searchAttempted := true }

end Tikit

namespace Tikit

/-! ## RAGService._generate and ask_question (rag_service.py lines 309-466)

The LLM invocation (`self.llm.invoke`) is an external effect; its outcome
is a parameter of type `Except String String` (`Except.error` when the
call raises).  Wall-clock latencies are environmental and are recorded as
0 in the metrics; no claim depends on their values.  The user-language
preference lookup (lines 401-426) is elided: the defaults
`source_language="en"`, `response_language="English"` are used, which is
the claim-relevant path. -/

/-- The static fallback answer returned when generation fails (line 355). -/
def fallbackAnswer : String :=
  "I\x27m having trouble processing your question right now. Please try again."

/-- The test at lines 315-316: a single context document whose metadata
`source` is `"static_response"`. -/
def isStaticCtx : List Document → Bool
  | [d] => d.metadata.lookup "source" == some "static_response"
  | _ => false

/-- `RAGService._generate` (lines 309-357), reduced to the produced
answer: the static context is echoed; otherwise the LLM response is
returned, and any exception during generation yields `fallbackAnswer`. -/
def generate (llmResult : Except String String) (ctx : List Document) : String :=
  if isStaticCtx ctx then
    (ctx.headI).page_content
  else
    match llmResult with
    | Except.ok response => response
    | Except.error _ => fallbackAnswer

/-- A metrics dictionary value (the dict at lines 446-459 is
heterogeneous). -/
inductive MVal where
  | num (n : ℤ)
  | str (s : String)
  | boolv (b : Bool)
  | docs (l : List DocInfo)
  | nil
deriving DecidableEq, Repr

/-- `RAGService.ask_question` (lines 359-466): empty-question guard, then
the graph `retrieve → generate`, then the metrics dictionary with exactly
the keys built at lines 446-459. -/
def askQuestion (llmResult : Except String String)
    (searchFn : String → Nat → List (Document × ℚ))
    (question : String) (workspace_id : Option Nat) :
    String × List (String × MVal) :=
  if pyStrip question = "" then
    ("I didn\x27t receive a question. Could you please ask something?", [])
  else
    let r := retrieve searchFn question workspace_id
    let answer := generate llmResult r.context
    (answer,
      [("retrieval_latency_ms", MVal.num 0),
       ("generation_latency_ms", MVal.num 0),
       ("retrieved_docs_info", MVal.docs r.retrieved_docs_info),
       ("model_name", MVal.str "gemma-3n-e4b-it"),
       ("temperature", MVal.nil),
       ("num_retrieved", MVal.num r.retrieved_docs_info.length),
       ("source_language", MVal.str "en"),
       ("response_language", MVal.str "English"),
       ("was_translated", MVal.boolv false),
       ("original_question", MVal.str question),
       ("translated_question", MVal.nil)])

/-! ## The chat endpoint (chat_router.py lines 22-193) -/

/-- Outcome of one `POST /chat/` request: the HTTP status, the response
body's answer, the persisted `Message` row's (question, answer) when one
is written, and the `error` argument passed to the interaction logger. -/
structure ChatResponse where
  status : Nat
  answer : String
  persistedMessage : Option (String × String)
  logError : Option String
deriving DecidableEq, Repr

/-- `chat_endpoint` (lines 62-193), preceded by FastAPI's validation of
the `Question` request model (lines 22-28: `min_length=1,
max_length=1000`, counted in characters, checked on the raw string; a
violation is rejected by the framework with status 422 before the handler
runs).  Inside the handler: a whitespace-only question gets 400 (line 81),
a falsy `current_workspace_id` gets 400 (line 85), and otherwise
`ask_question` is invoked — in this model it is total, mirroring that the
pipeline catches generation errors internally, so the handler's
`except` branch never fires and `error_message` stays `None`. -/
def chatEndpoint (llmResult : Except String String)
    (searchFn : String → Nat → List (Document × ℚ))
    (question : String) (current_workspace_id : Option Nat) : ChatResponse :=
  if question.length < 1 ∨ question.length > 1000 then
    { status := 422, answer := "", persistedMessage := none, logError := none }
  else if pyStrip question = "" then
    { status := 400, answer := "", persistedMessage := none, logError := none }
  else if current_workspace_id.getD 0 = 0 then
    { status := 400, answer := "", persistedMessage := none, logError := none }
  else
    let (answer, _metrics) := askQuestion llmResult searchFn question current_workspace_id
    { status := 200, answer := answer,
      persistedMessage := some (question, answer), logError := none }

/-! ## Refresh tokens (auth.py lines 62-156, auth_router.py lines 70-108) -/

/-- One row of the `RefreshToken` table. -/
structure RefreshTokenRow where
  id : Nat
  user_id : Nat
  token_hash : String
  expires_at : Nat
  created_at : Nat
  is_active : Bool
deriving DecidableEq, Repr

/-- `REFRESH_TOKEN_EXPIRE_DAYS` converted to the time unit of the model
(days). -/
def refreshTokenExpireDays : Nat := 30

/-- `cleanup_expired_tokens(user_id, session)` (auth.py lines 62-85):
delete the user's expired rows and the user's inactive rows with
`created_at < now`. -/
def cleanupExpiredTokens (uid now : Nat) (db : List RefreshTokenRow) :
    List RefreshTokenRow :=
  db.filter fun r =>
    !(r.user_id == uid && r.expires_at < now) &&
    !(r.user_id == uid && !r.is_active && r.created_at < now)

/-- Insert into a list kept sorted by `created_at` descending
(`ORDER BY created_at DESC` at line 107). -/
def insertByCreatedDesc (r : RefreshTokenRow) : List RefreshTokenRow → List RefreshTokenRow
  | [] => [r]
  | x :: xs =>
      if x.created_at ≤ r.created_at then r :: x :: xs
      else x :: insertByCreatedDesc r xs

/-- Sort by `created_at` descending. -/
def sortByCreatedDesc (l : List RefreshTokenRow) : List RefreshTokenRow :=
  l.foldr insertByCreatedDesc []

/-- The user's active rows, most recent first (auth.py lines 103-108). -/
def activeTokensOf (uid : Nat) (db : List RefreshTokenRow) : List RefreshTokenRow :=
  sortByCreatedDesc (db.filter fun r => r.user_id == uid && r.is_active)

/-- Lines 110-114 of auth.py: when the user has two or more active rows,
deactivate every fetched active row except the most recent one
(`active_tokens[1:]`). -/
def deactivateOldTokens (uid : Nat) (db1 : List RefreshTokenRow) : List RefreshTokenRow :=
  if (activeTokensOf uid db1).length ≥ 2 then
    db1.map fun r =>
      if r.user_id == uid && r.is_active &&
          (((activeTokensOf uid db1).drop 1).map RefreshTokenRow.id).contains r.id then
        { r with is_active := false }
      else r
  else db1

/-- `create_refresh_token(user_id, session)` (auth.py lines 88-125).  The
random token and its SHA-256 hash are produced by outside randomness;
`tokenHash` is the hash that gets stored.  `newId` is the primary key the
database assigns to the inserted row. -/
def createRefreshToken (uid now newId : Nat) (tokenHash : String)
    (db : List RefreshTokenRow) : List RefreshTokenRow :=
  let db1 := cleanupExpiredTokens uid now db
  deactivateOldTokens uid db1 ++
    [{ id := newId, user_id := uid, token_hash := tokenHash,
       expires_at := now + refreshTokenExpireDays, created_at := now,
       is_active := true }]

/-- Count of a user's active refresh tokens. -/
def countActive (uid : Nat) (db : List RefreshTokenRow) : Nat :=
  (db.filter fun r => r.user_id == uid && r.is_active).length

/-- `verify_refresh_token(token, session)` (auth.py lines 135-156) reduced
to the row lookup: the SHA-256 of the presented token must match an
active, unexpired row.  Returns the owning user id. -/
def verifyRefreshToken (presentedHash : String) (now : Nat)
    (db : List RefreshTokenRow) : Option Nat :=
  match db.find? (fun r =>
      r.token_hash == presentedHash && r.is_active && now < r.expires_at) with
  | some r => some r.user_id
  | none => none

/-- The `POST /auth/refresh` handler (auth_router.py lines 70-108) reduced
to its status code: 401 when the token fails verification. -/
def refreshEndpointStatus (presentedHash : String) (now : Nat)
    (db : List RefreshTokenRow) : Nat :=
  match verifyRefreshToken presentedHash now db with
  | some _ => 200
  | none => 401

/-- One issue operation of an issue sequence: `(user_id, now, token_hash)`.
The row id is assigned fresh by the fold (as the database does). -/
def issueSeqFrom : Nat → List RefreshTokenRow → List (Nat × Nat × String) →
    List RefreshTokenRow
  | _, db, [] => db
  | nextId, db, (uid, now, h) :: ops =>
      issueSeqFrom (nextId + 1) (createRefreshToken uid now nextId h db) ops

/-- A sequence of token issues starting from an empty table. -/
def issueSeq (ops : List (Nat × Nat × String)) : List RefreshTokenRow :=
  issueSeqFrom 0 [] ops

end Tikit

namespace Tikit

/-! ## get_current_user (auth.py lines 196-227) -/

/-- One row of the `User` table (the fields this dependency touches). -/
structure UserRow where
  id : Nat
  is_admin : Bool
deriving DecidableEq, Repr

/-- A decoded JWT payload: the `sub` and `type` claims. -/
structure JwtPayload where
  sub : Option String
  typ : Option String
deriving DecidableEq, Repr

/-- Python `int(s)` on the strings this code produces (decimal digit
strings written by `str(user_id)`); `none` models the `ValueError`. -/
def pyInt : String → Option Nat :=
  fun s =>
    if s.data ≠ [] ∧ s.data.all Char.isDigit then
      some (s.data.foldl (fun acc c => acc * 10 + (c.toNat - 48)) 0)
    else none

/-- `get_current_user` (auth.py lines 196-227).  `decoded` is the result
of `jwt.decode` (`none` when it raises `JWTError`).  The dependency
returns `Except.error status` when it raises an `HTTPException`, and
otherwise `Except.ok (session.get(User, user_id))` — which may well be
`Except.ok none`: a valid access token whose subject has no User row is
not rejected. -/
def getCurrentUser (decoded : Option JwtPayload) (users : List UserRow) :
    Except Nat (Option UserRow) :=
  match decoded with
  | none => Except.error 401
  | some payload =>
      match payload.sub with
      | none => Except.error 401
      | some userIdStr =>
          if payload.typ ≠ some "access" then Except.error 401
          else
            match pyInt userIdStr with
            | none => Except.error 500  -- uncaught ValueError from int()
            | some uid => Except.ok (users.find? fun u => u.id == uid)

/-! ## ClickUp task serialization (data_router.py lines 736-761) -/

/-- One entry of a ClickUp task's `custom_fields` array: its `name` and
its `value` (absent when the API omits it). -/
structure CustomField where
  name : String
  value : Option String
deriving DecidableEq, Repr

/-- The fields of the ClickUp task JSON that `_build_file_content`
reads. -/
structure ClickUpTask where
  name : Option String
  description : Option String
  custom_fields : List CustomField
deriving DecidableEq, Repr

/-- `_extract_solution(task_data)` (lines 736-741): the value of the first
custom field named `"Solution"`, with `field.get("value") or "No solution
provided."` collapsing an absent or empty value to the default. -/
def extractSolution (task : ClickUpTask) : String :=
  match task.custom_fields.find? (fun f => f.name == "Solution") with
  | some f =>
      match f.value with
      | some v => if v = "" then "No solution provided." else v
      | none => "No solution provided."
  | none => "No solution provided."

/-- Python `"\n".join(lines)`. -/
def joinLines : List String → String
  | [] => ""
  | [l] => l
  | l :: ls => l ++ "\n" ++ joinLines ls

/-- `_build_file_content(ticket_id, task_data)` (lines 744-761). -/
def buildFileContent (ticket_id : String) (task : ClickUpTask) : String :=
  joinLines
    ["Task ID: " ++ ticket_id,
     "Issue: " ++ task.name.getD "",
     "Problem: " ++ task.description.getD "",
     "Solution:",
     extractSolution task]

/-! ## Sync and unsync of a regular DataSource
(data_router.py lines 858-892 and 941-980, vector_service.py) -/

/-- The columns of a `DataSource` row that these endpoints touch. -/
structure DataSourceRow where
  id : Nat
  reference : String
  source_type : String
  workspace_id : Option Nat
  is_synced : Nat
deriving DecidableEq, Repr

/-- The parameters (besides `self`) declared by
`VectorStoreService.process_documents_for_embedding` (line 223):
`(self, docs, file_paths)`. -/
def processDocumentsForEmbeddingParams : List String := ["docs", "file_paths"]

/-- The vector store's contents: the list of stored chunks. -/
abbrev VectorStore := List Document

/-- `_sync_single_regular_datasource` as invoked by
`POST /datasources/regular/{id}/sync` (data_router.py lines 941-980).
`loadedDocs` is what the file/URL loader produced.  The embedding step
(line 968) calls `process_documents_for_embedding(documents,
[ds.reference], ds.workspace_id)` — three positional arguments against a
two-parameter method — so the call raises `TypeError`; no `try` encloses
it, hence the endpoint raises (HTTP 500) and neither the store nor the row
changes.  The `Except.ok` branch is what would happen were the call
accepted. -/
def syncRegularSource (store : VectorStore) (ds : DataSourceRow)
    (loadedDocs : List Document) : Except String (VectorStore × DataSourceRow) :=
  if pyCallAccepted processDocumentsForEmbeddingParams
      ["docs", "file_paths", "workspace_id"] [] then
    let splits := process_documents_for_embedding loadedDocs [ds.reference]
    Except.ok (store ++ splits, { ds with is_synced := 1 })
  else
    Except.error "TypeError: process_documents_for_embedding takes 3 positional arguments but 4 were given"

/-- The startup ingest path `VectorStoreService._process_single_datasource`
(vector_service.py lines 181-221), which does call
`process_documents_for_embedding(docs, [datasource.reference])` with the
declared arity and adds the splits to the store. -/
def embedDatasourceStartup (store : VectorStore) (ds : DataSourceRow)
    (loadedDocs : List Document) : VectorStore :=
  store ++ process_documents_for_embedding loadedDocs [ds.reference]

/-- `POST /datasources/regular/{id}/unsync` (data_router.py lines
870-892).  The handler calls
`vector_service.delete_documents_by_source(ds.reference)` inside a `try`;
`VectorStoreService` defines no such attribute, so the call raises
`AttributeError`, the `except` logs it, and the store is left untouched;
the row is then committed with `is_synced = 0`. -/
def unsyncRegularSource (store : VectorStore) (ds : DataSourceRow) :
    VectorStore × DataSourceRow :=
  let deleteResult : Except String VectorStore :=
    if vectorStoreServiceMethods.contains "delete_documents_by_source" then
      Except.ok (store.filter fun d => d.metadata.lookup "source_reference" ≠ some ds.reference)
    else
      Except.error "AttributeError: delete_documents_by_source"
  let store1 :=
    match deleteResult with
    | Except.ok s => s
    | Except.error _ => store  -- lines 884-887: except branch, deletion skipped
  (store1, { ds with is_synced := 0 })

end Tikit

namespace Tikit

/-! ## Helper lemmas -/

/-- A successful association-list lookup means the key occurs among the
keys. -/
theorem lookup_some_mem_keys {l : List (String × String)} {k : String} {v : String}
    (h : l.lookup k = some v) : k ∈ l.map Prod.fst := by
  induction l with
  | nil => simp [List.lookup] at h
  | cons p t ih =>
      rw [List.lookup] at h
      cases hk : k == p.1 with
      | true =>
          simp only [List.map_cons, List.mem_cons]
          exact Or.inl (beq_iff_eq.mp hk)
      | false =>
          rw [hk] at h
          simp only [List.map_cons, List.mem_cons]
          exact Or.inr (ih h)

/-- A failed association-list lookup means the key is absent from the
keys. -/
theorem lookup_none_not_mem_keys {l : List (String × String)} {k : String}
    (h : l.lookup k = none) : k ∉ l.map Prod.fst := by
  induction l with
  | nil => simp
  | cons p t ih =>
      rw [List.lookup] at h
      cases hk : k == p.1 with
      | true => rw [hk] at h; exact absurd h (by simp)
      | false =>
          rw [hk] at h
          simp only [List.map_cons, List.mem_cons]
          rintro (rfl | hm)
          · simp at hk
          · exact (ih h) hm

end Tikit

namespace Tikit

/-! ## Claim C6 — score-threshold boundary -/

/-- C6: in `_retrieve`'s hit-processing loop, a hit joins the effective
prompt context exactly when its score is strictly greater than 0.6 (a
score of exactly 0.6 is excluded, one of 0.6000001 included), while every
returned hit — whatever its score — is recorded in
`retrieved_docs_info`. -/
theorem C6_score_threshold :
    (∀ hits : List (Document × ℚ),
      (processHits hits).1 = (hits.filter fun h => decide ((6 : ℚ)/10 < h.2)).map Prod.fst) ∧
    (∀ hits : List (Document × ℚ),
      (processHits hits).2 = hits.map fun h =>
        { doc_id := metaGetD h.1 "_id", doc := h.1.page_content, score := h.2,
          source := metaGetD h.1 "source", workspace_id := metaGetD h.1 "workspace_id" }) ∧
    (∀ d : Document, (processHits [(d, 6/10)]).1 = []) ∧
    (∀ d : Document, (processHits [(d, 6000001/10000000)]).1 = [d]) := by
  refine ⟨?_, ?_, ?_, ?_⟩
  · intro hits
    induction hits with
    | nil => simp [processHits]
    | cons h t ih =>
        obtain ⟨d, s⟩ := h
        by_cases hs : (6 : ℚ)/10 < s
        · simp [processHits, hs, ih]
        · simp [processHits, hs, ih]
  · intro hits
    induction hits with
    | nil => simp [processHits]
    | cons h t ih =>
        obtain ⟨d, s⟩ := h
        simp [processHits, ih]
  · intro d
    norm_num [processHits]
  · intro d
    norm_num [processHits]

/-! ## Claim C9 — canonical ClickUp task serialization -/

/-- C9: the file content written for a ClickUp task is exactly the five
lines `Task ID: <id>`, `Issue: <name>`, `Problem: <description>`,
`Solution:`, and the value of the custom field named `"Solution"` — or
the literal `No solution provided.` when that field is absent, valueless
or empty — joined by single newlines. -/
theorem C9_clickup_file_format :
    (∀ (tid : String) (task : ClickUpTask),
      buildFileContent tid task =
        "Task ID: " ++ tid ++ "\n" ++ "Issue: " ++ task.name.getD "" ++ "\n" ++
        "Problem: " ++ task.description.getD "" ++ "\n" ++ "Solution:" ++ "\n" ++
        extractSolution task) ∧
    (∀ task : ClickUpTask,
      task.custom_fields.find? (fun g => g.name == "Solution") = none →
      extractSolution task = "No solution provided.") ∧
    (∀ (task : ClickUpTask) (f : CustomField),
      task.custom_fields.find? (fun g => g.name == "Solution") = some f →
      f.value = none ∨ f.value = some "" →
      extractSolution task = "No solution provided.") ∧
    (∀ (task : ClickUpTask) (f : CustomField) (v : String),
      task.custom_fields.find? (fun g => g.name == "Solution") = some f →
      f.value = some v → v ≠ "" →
      extractSolution task = v) := by
  refine ⟨?_, ?_, ?_, ?_⟩
  · intro tid task
    apply String.ext
    simp [buildFileContent, joinLines, String.data_append, List.append_assoc]
  · intro task h
    simp [extractSolution, h]
  · intro task f h hv
    rcases hv with hv | hv <;> simp [extractSolution, h, hv]
  · intro task f v h hv hne
    simp [extractSolution, h, hv, hne]

/-- Witness for C9: concrete tasks exercising the present, empty and
absent "Solution" custom field. -/
theorem C9_clickup_file_format_witness :
    buildFileContent "42" ⟨some "Login fails", some "Cannot log in", [⟨"Solution", some "restart the service"⟩]⟩ =
      "Task ID: 42\nIssue: Login fails\nProblem: Cannot log in\nSolution:\nrestart the service" ∧
    extractSolution ⟨none, none, []⟩ = "No solution provided." ∧
    extractSolution ⟨none, none, [⟨"Solution", some ""⟩]⟩ = "No solution provided." ∧
    extractSolution ⟨none, none, [⟨"Solution", some "restart the service"⟩]⟩ = "restart the service" :=
  ⟨by
    rw [C9_clickup_file_format.1 "42"
      ⟨some "Login fails", some "Cannot log in", [⟨"Solution", some "restart the service"⟩]⟩]
    rfl,
   C9_clickup_file_format.2.1 ⟨none, none, []⟩ rfl,
   C9_clickup_file_format.2.2.1 ⟨none, none, [⟨"Solution", some ""⟩]⟩ ⟨"Solution", some ""⟩ rfl (Or.inr rfl),
   C9_clickup_file_format.2.2.2 ⟨none, none, [⟨"Solution", some "restart the service"⟩]⟩
     ⟨"Solution", some "restart the service"⟩ "restart the service" rfl rfl (by decide)⟩

/-! ## Claim C10 — access token for a vanished user -/

/-- C10: a correctly signed access token (type `"access"`) whose subject
id matches no `User` row is not rejected by `get_current_user`; the
dependency returns `None` as the current user rather than raising 401. -/
theorem C10_missing_user_not_rejected :
    ∀ (users : List UserRow) (subStr : String) (uid : Nat),
      pyInt subStr = some uid →
      users.find? (fun u => u.id == uid) = none →
      getCurrentUser (some ⟨some subStr, some "access"⟩) users = Except.ok none := by
  intro users subStr uid hp hf
  simp [getCurrentUser, hp, hf]

/-- Witness for C10: subject `7`, empty user table. -/
theorem C10_missing_user_not_rejected_witness :
    pyInt "7" = some 7 ∧
    getCurrentUser (some ⟨some "7", some "access"⟩) [] = Except.ok none :=
  ⟨by decide, C10_missing_user_not_rejected [] "7" 7 (by decide) rfl⟩

end Tikit

namespace Tikit

/-! ## Claim C1 — workspace isolation of retrieval -/

/-- C1: the call `similarity_search_with_score(search_question, k=...,
metadata_filter=...)` in `_retrieve` passes a keyword argument the method
does not declare, so it raises `TypeError` for every query; the
surrounding `except` turns this into the empty result.  Hence no chat
question that reaches the vector-search path ever receives any hit — in
particular no hit from another workspace, but also none from the caller's
own workspace, and no workspace filter is ever applied to a search. -/
theorem C1_search_never_returns_hits :
    ∀ (searchFn : String → Nat → List (Document × ℚ)) (q : String) (w : Option Nat),
      staticResponses.lookup (pyNormalize q) = none →
      greetingShortCircuit (pyNormalize q) = false →
      (retrieve searchFn q w).context = [] ∧
      (retrieve searchFn q w).retrieved_docs_info = [] := by
  intro searchFn q w h1 h2
  have hcall : pyCallAccepted similaritySearchWithScoreParams ["query"] ["k", "metadata_filter"]
      = false := by decide
  constructor <;> simp [retrieve, h1, h2, hcall]

/-- Witness for C1: the spec's own scenario S1 — a workspace-1 query
against a store whose search would return a matching workspace-1 chunk
with score 0.9 — still yields no context and no logged hits. -/
theorem C1_search_never_returns_hits_witness :
    staticResponses.lookup (pyNormalize "How do I fix pdf export?") = none ∧
    greetingShortCircuit (pyNormalize "How do I fix pdf export?") = false ∧
    (retrieve
        (fun _ _ => [(⟨"Issue: cannot export PDF. Solution: enable print driver.",
                       [("workspace_id", "1")]⟩, 9/10)])
        "How do I fix pdf export?" (some 1)).context = [] ∧
    (retrieve
        (fun _ _ => [(⟨"Issue: cannot export PDF. Solution: enable print driver.",
                       [("workspace_id", "1")]⟩, 9/10)])
        "How do I fix pdf export?" (some 1)).retrieved_docs_info = [] :=
  ⟨by decide, by decide,
   (C1_search_never_returns_hits
      (fun _ _ => [(⟨"Issue: cannot export PDF. Solution: enable print driver.",
                     [("workspace_id", "1")]⟩, 9/10)])
      "How do I fix pdf export?" (some 1) (by decide) (by decide)).1,
   (C1_search_never_returns_hits
      (fun _ _ => [(⟨"Issue: cannot export PDF. Solution: enable print driver.",
                     [("workspace_id", "1")]⟩, 9/10)])
      "How do I fix pdf export?" (some 1) (by decide) (by decide)).2⟩

/-! ## Claim C2 — chunk metadata at ingest -/

/-- C2: every chunk emitted by `process_documents_for_embedding` carries
the empty metadata dictionary — no `source_reference` and no
`workspace_id` key is ever attached, whatever the documents and source
references given to the splitter. -/
theorem C2_chunks_carry_no_metadata :
    ∀ (docs : List Document) (paths : List String) (c : Document),
      c ∈ process_documents_for_embedding docs paths → c.metadata = [] := by
  intro docs paths c hc
  unfold process_documents_for_embedding at hc
  split at hc
  · exact absurd hc (List.not_mem_nil c)
  · split at hc
    · rcases List.mem_filterMap.mp hc with ⟨a, _, ha⟩
      split at ha
      · injection ha with h
        rw [← h]
      · exact absurd ha (by simp)
    · split at hc
      · rcases List.mem_filterMap.mp hc with ⟨a, _, ha⟩
        split at ha
        · injection ha with h
          rw [← h]
        · exact absurd ha (by simp)
      · rcases List.mem_map.mp hc with ⟨a, _, ha⟩
        rw [← ha]

/-- Witness for C2: a support-ticket document split for source
`notes.txt` yields a chunk with empty metadata. -/
theorem C2_chunks_carry_no_metadata_witness :
    (⟨"Issue: cannot export PDF", []⟩ : Document) ∈
      process_documents_for_embedding [⟨"Issue: cannot export PDF", []⟩] ["notes.txt"] ∧
    (⟨"Issue: cannot export PDF", []⟩ : Document).metadata = [] :=
  ⟨by decide,
   C2_chunks_carry_no_metadata [⟨"Issue: cannot export PDF", []⟩] ["notes.txt"]
     ⟨"Issue: cannot export PDF", []⟩ (by decide)⟩

end Tikit

namespace Tikit

/-- On the vector-search path (no static key, no greeting), `_retrieve`
always produces the empty result, because the search call raises
`TypeError`. -/
theorem retrieve_search_empty (searchFn : String → Nat → List (Document × ℚ))
    (q : String) (w : Option Nat)
    (h1 : staticResponses.lookup (pyNormalize q) = none)
    (h2 : greetingShortCircuit (pyNormalize q) = false) :
    retrieve searchFn q w =
      { context := [], retrieved_docs_info := [], searchAttempted := true } := by
  have hcall : pyCallAccepted similaritySearchWithScoreParams ["query"] ["k", "metadata_filter"]
      = false := by decide
  simp [retrieve, h1, h2, hcall]

/-! ## Claim C5 — chat failure fallback -/

/-- Counterexample for C5 as stated: on an LLM failure the pipeline does
return the fixed fallback string, but its metrics dictionary carries no
`error` field (the keys are fixed at rag_service.py lines 446-459 and
`error` is not among them; `_generate` swallows the exception before
`ask_question` could fail). -/
theorem C5_no_error_field_counterexample :
    (askQuestion (Except.error "LLM unavailable") (fun _ _ => [])
        "How do I fix pdf export?" (some 1)).1 = fallbackAnswer ∧
    (askQuestion (Except.error "LLM unavailable") (fun _ _ => [])
        "How do I fix pdf export?" (some 1)).2.lookup "error" = none := by
  constructor
  · decide
  · decide

/-- C5 as amended: when the LLM invocation fails on a request that passes
validation and is not short-circuited, the pipeline returns exactly the
fallback string without raising; the chat handler still answers 200, the
persisted Message row records the fallback answer, the logger's `error`
argument stays `None`, and the pipeline metrics contain no `error`
field. -/
theorem C5_fallback_behavior :
    ∀ (e : String) (searchFn : String → Nat → List (Document × ℚ)) (q : String) (w : Nat),
      1 ≤ q.length → q.length ≤ 1000 →
      pyStrip q ≠ "" → w ≠ 0 →
      staticResponses.lookup (pyNormalize q) = none →
      greetingShortCircuit (pyNormalize q) = false →
      (chatEndpoint (Except.error e) searchFn q (some w)).status = 200 ∧
      (chatEndpoint (Except.error e) searchFn q (some w)).answer = fallbackAnswer ∧
      (chatEndpoint (Except.error e) searchFn q (some w)).persistedMessage
        = some (q, fallbackAnswer) ∧
      (chatEndpoint (Except.error e) searchFn q (some w)).logError = none ∧
      (askQuestion (Except.error e) searchFn q (some w)).1 = fallbackAnswer ∧
      (askQuestion (Except.error e) searchFn q (some w)).2.lookup "error" = none := by
  intro e searchFn q w hlen1 hlen2 hstrip hw h1 h2
  have hr := retrieve_search_empty searchFn q (some w) h1 h2
  have hcond1 : ¬(q.length < 1 ∨ q.length > 1000) := by omega
  have hw' : ¬((some w : Option Nat).getD 0 = 0) := by simpa using hw
  have hask : askQuestion (Except.error e) searchFn q (some w) =
      (fallbackAnswer,
        [("retrieval_latency_ms", MVal.num 0),
         ("generation_latency_ms", MVal.num 0),
         ("retrieved_docs_info", MVal.docs []),
         ("model_name", MVal.str "gemma-3n-e4b-it"),
         ("temperature", MVal.nil),
         ("num_retrieved", MVal.num 0),
         ("source_language", MVal.str "en"),
         ("response_language", MVal.str "English"),
         ("was_translated", MVal.boolv false),
         ("original_question", MVal.str q),
         ("translated_question", MVal.nil)]) := by
    simp [askQuestion, hstrip, hr, generate, isStaticCtx]
  have hchat : chatEndpoint (Except.error e) searchFn q (some w) =
      { status := 200, answer := fallbackAnswer,
        persistedMessage := some (q, fallbackAnswer), logError := none } := by
    simp only [chatEndpoint]
    rw [if_neg hcond1, if_neg hstrip, if_neg hw']
    simp [hask]
  exact ⟨by rw [hchat], by rw [hchat], by rw [hchat], by rw [hchat],
         by rw [hask], by rw [hask]; rfl⟩

/-- Witness for C5: the LLM raising on a validated, non-greeting
question. -/
theorem C5_fallback_behavior_witness :
    (chatEndpoint (Except.error "boom") (fun _ _ => [])
        "How do I fix pdf export?" (some 1)).status = 200 ∧
    (chatEndpoint (Except.error "boom") (fun _ _ => [])
        "How do I fix pdf export?" (some 1)).answer = fallbackAnswer ∧
    (chatEndpoint (Except.error "boom") (fun _ _ => [])
        "How do I fix pdf export?" (some 1)).persistedMessage
      = some ("How do I fix pdf export?", fallbackAnswer) :=
  ⟨(C5_fallback_behavior "boom" (fun _ _ => []) "How do I fix pdf export?" 1
      (by decide) (by decide) (by decide) (by decide) (by decide) (by decide)).1,
   (C5_fallback_behavior "boom" (fun _ _ => []) "How do I fix pdf export?" 1
      (by decide) (by decide) (by decide) (by decide) (by decide) (by decide)).2.1,
   (C5_fallback_behavior "boom" (fun _ _ => []) "How do I fix pdf export?" 1
      (by decide) (by decide) (by decide) (by decide) (by decide) (by decide)).2.2.1⟩

end Tikit

namespace Tikit

/-! ## Claim C7 — greeting short-circuit condition -/

/-- Counterexample for C7 as stated: `"shipping status update"` has 3
tokens and matches no greeting token, yet `_retrieve` skips the vector
search and injects the canned greeting context, because the code tests
`greeting in question` — substring containment — and `"hi"` occurs inside
`"shipping"`. -/
theorem C7_substring_counterexample :
    (retrieve (fun _ _ => []) "shipping status update" (some 1)).searchAttempted = false ∧
    (retrieve (fun _ _ => []) "shipping status update" (some 1)).context = [greetingDoc] ∧
    ¬ (((retrieve (fun _ _ => []) "shipping status update" (some 1)).searchAttempted = false) ↔
       ((pyTokens (pyNormalize "shipping status update")).length ≤ 3 ∧
        pyNormalize "shipping status update" ∈ greetings)) := by
  refine ⟨by decide, by decide, ?_⟩
  intro h
  exact absurd ((h.mp (by decide)).2) (by decide)

/-- C7 as amended: `_retrieve` skips the vector search (injecting a
canned context) iff the normalized question is an exact key of the
static-responses table, or it CONTAINS one of the greeting tokens as a
substring and has at most 3 whitespace tokens.  A 4-token
greeting-prefixed message that is not a static key still reaches the
search path. -/
theorem C7_skip_condition :
    (∀ (searchFn : String → Nat → List (Document × ℚ)) (q : String) (w : Option Nat),
      (retrieve searchFn q w).searchAttempted = false ↔
        (pyNormalize q ∈ staticResponseKeys ∨
         (greetings.any (fun g => containsSub (pyNormalize q) g) = true ∧
          (pyTokens (pyNormalize q)).length ≤ 3))) ∧
    (retrieve (fun _ _ => []) "hi how are you" (some 1)).searchAttempted = true := by
  constructor
  · intro searchFn q w
    cases h : staticResponses.lookup (pyNormalize q) with
    | some r =>
        have hmem : pyNormalize q ∈ staticResponseKeys := lookup_some_mem_keys h
        simp [retrieve, h]
        exact Or.inl hmem
    | none =>
        have hnot : pyNormalize q ∉ staticResponseKeys := lookup_none_not_mem_keys h
        have hcall : pyCallAccepted similaritySearchWithScoreParams ["query"]
            ["k", "metadata_filter"] = false := by decide
        cases hg : greetingShortCircuit (pyNormalize q) with
        | true =>
            have h' := hg
            simp only [greetingShortCircuit, Bool.and_eq_true, List.any_eq_true,
              decide_eq_true_eq] at h'
            simp [retrieve, h, hg]
            exact Or.inr h'
        | false =>
            simp [retrieve, h, hg, hcall]
            refine ⟨hnot, ?_⟩
            intro x hx hcsub
            by_contra h3
            push_neg at h3
            have hgt : greetingShortCircuit (pyNormalize q) = true := by
              simp only [greetingShortCircuit, Bool.and_eq_true, List.any_eq_true,
                decide_eq_true_eq]
              exact ⟨⟨x, hx, hcsub⟩, h3⟩
            simp [hg] at hgt
  · decide

/-! ## Claim C8 — question length validation -/

/-- Counterexample for C8 as stated: an empty question is rejected by the
request-model validation with status 422, not 400. -/
theorem C8_question_length_counterexample :
    (chatEndpoint (Except.ok "All good!") (fun _ _ => []) "" (some 1)).status = 422 ∧
    ¬ (chatEndpoint (Except.ok "All good!") (fun _ _ => []) "" (some 1)).status = 400 := by
  exact ⟨by decide, by decide⟩

/-- C8 as amended: a question whose raw character length is 0 or greater
than 1000 is rejected with 422 by the request model's validation
(`min_length=1, max_length=1000`, checked before trimming); a question
within those bounds that trims to the empty string is rejected with 400;
a question within bounds with non-whitespace content is accepted and
processed (status 200). -/
theorem C8_question_length_validation :
    ∀ (llmResult : Except String String) (searchFn : String → Nat → List (Document × ℚ))
      (q : String) (w : Nat),
      w ≠ 0 →
      ((q.length = 0 ∨ q.length > 1000) →
        (chatEndpoint llmResult searchFn q (some w)).status = 422) ∧
      (1 ≤ q.length → q.length ≤ 1000 → pyStrip q = "" →
        (chatEndpoint llmResult searchFn q (some w)).status = 400) ∧
      (1 ≤ q.length → q.length ≤ 1000 → pyStrip q ≠ "" →
        (chatEndpoint llmResult searchFn q (some w)).status = 200) := by
  intro llmResult searchFn q w hw
  have hw' : ¬((some w : Option Nat).getD 0 = 0) := by simpa using hw
  refine ⟨?_, ?_, ?_⟩
  · intro hout
    have hc : q.length < 1 ∨ q.length > 1000 := by omega
    simp only [chatEndpoint]
    rw [if_pos hc]
  · intro hlo hhi hstrip
    have hc : ¬(q.length < 1 ∨ q.length > 1000) := by omega
    simp only [chatEndpoint]
    rw [if_neg hc, if_pos hstrip]
  · intro hlo hhi hstrip
    have hc : ¬(q.length < 1 ∨ q.length > 1000) := by omega
    simp only [chatEndpoint]
    rw [if_neg hc, if_neg hstrip, if_neg hw']

set_option maxRecDepth 8192 in
/-- Witness for C8: length 1 and length 1000 succeed; a 1-character
whitespace question gets 400; the workspace id is 1. -/
theorem C8_question_length_validation_witness :
    (chatEndpoint (Except.ok "All good!") (fun _ _ => []) "a" (some 1)).status = 200 ∧
    (chatEndpoint (Except.ok "All good!") (fun _ _ => [])
        (⟨List.replicate 1000 'a'⟩ : String) (some 1)).status = 200 ∧
    (chatEndpoint (Except.ok "All good!") (fun _ _ => []) " " (some 1)).status = 400 :=
  ⟨(C8_question_length_validation (Except.ok "All good!") (fun _ _ => []) "a" 1
      (by decide)).2.2 (by decide) (by decide) (by decide),
   (C8_question_length_validation (Except.ok "All good!") (fun _ _ => [])
      (⟨List.replicate 1000 'a'⟩ : String) 1
      (by decide)).2.2 (by decide) (by decide) (by decide),
   (C8_question_length_validation (Except.ok "All good!") (fun _ _ => []) " " 1
      (by decide)).2.1 (by decide) (by decide) (by decide)⟩

end Tikit

namespace Tikit

/-! ## Claim C4 — sync/unsync round trip -/

/-- C4 evaluation: (i) for any store and DataSource, the unsync endpoint
never removes anything from the vector store — the
`delete_documents_by_source` attribute does not exist, the
`AttributeError` is swallowed — while it does set `is_synced = 0`;
(ii) the per-source sync endpoint itself raises `TypeError` (HTTP 500,
no chunks added, row unchanged) because it passes three positional
arguments to the two-parameter `process_documents_for_embedding`;
(iii) concretely, a chunk ingested for `notes.txt` by the working startup
path is still in the store after unsync even though the row now says
`is_synced = 0`. -/
theorem C4_sync_unsync_round_trip_eval :
    (∀ (store : VectorStore) (ds : DataSourceRow),
      (unsyncRegularSource store ds).1 = store ∧
      (unsyncRegularSource store ds).2.is_synced = 0) ∧
    (∀ (store : VectorStore) (ds : DataSourceRow) (loadedDocs : List Document),
      syncRegularSource store ds loadedDocs =
        Except.error "TypeError: process_documents_for_embedding takes 3 positional arguments but 4 were given") ∧
    embedDatasourceStartup [] ⟨1, "notes.txt", "file", some 1, 0⟩
        [⟨"Issue: cannot export PDF", []⟩] = [⟨"Issue: cannot export PDF", []⟩] ∧
    (unsyncRegularSource [⟨"Issue: cannot export PDF", []⟩]
        ⟨1, "notes.txt", "file", some 1, 1⟩).1 = [⟨"Issue: cannot export PDF", []⟩] := by
  have hattr : "delete_documents_by_source" ∉ vectorStoreServiceMethods := by
    decide
  have hcall : pyCallAccepted processDocumentsForEmbeddingParams
      ["docs", "file_paths", "workspace_id"] [] = false := by decide
  refine ⟨?_, ?_, by decide, by decide⟩
  · intro store ds
    constructor <;> simp [unsyncRegularSource, hattr]
  · intro store ds loadedDocs
    simp [syncRegularSource, hcall]

end Tikit

namespace Tikit

/-! ## Claim C3 — refresh-token rotation cap: helper lemmas -/

/-- Inserting into a created_at-descending list permutes consing. -/
theorem insertByCreatedDesc_perm (r : RefreshTokenRow) (l : List RefreshTokenRow) :
    (insertByCreatedDesc r l).Perm (r :: l) := by
  induction l with
  | nil => exact List.Perm.refl _
  | cons x xs ih =>
      unfold insertByCreatedDesc
      by_cases hx : x.created_at ≤ r.created_at
      · rw [if_pos hx]
      · rw [if_neg hx]
        exact (List.Perm.cons x ih).trans (List.Perm.swap r x xs)

/-- The descending sort is a permutation of its input. -/
theorem sortByCreatedDesc_perm (l : List RefreshTokenRow) :
    (sortByCreatedDesc l).Perm l := by
  induction l with
  | nil => exact List.Perm.refl _
  | cons x xs ih =>
      exact (insertByCreatedDesc_perm x (sortByCreatedDesc xs)).trans (List.Perm.cons x ih)

/-- After the deactivation pass, a row is still active for `uid` exactly
when it was active and its id avoids `dropIds`. -/
theorem filter_map_deact (db1 : List RefreshTokenRow) (uid : Nat) (dropIds : List Nat) :
    ((db1.map fun r =>
        if r.user_id == uid && r.is_active && dropIds.contains r.id then
          { r with is_active := false }
        else r).filter fun r => r.user_id == uid && r.is_active)
      = db1.filter fun r =>
          r.user_id == uid && r.is_active && !dropIds.contains r.id := by
  induction db1 with
  | nil => rfl
  | cons r t ih =>
      simp only [List.map_cons, List.filter_cons]
      by_cases hp : (r.user_id == uid && r.is_active) = true
      · by_cases hcc : dropIds.contains r.id = true
        · have hcond : (r.user_id == uid && r.is_active && dropIds.contains r.id) = true := by
            rw [hp, Bool.true_and]; exact hcc
          rw [if_pos hcond]
          have hpd : (({ r with is_active := false } : RefreshTokenRow).user_id == uid &&
              ({ r with is_active := false } : RefreshTokenRow).is_active) = false := by
            simp
          rw [if_neg (show ¬(({ r with is_active := false } : RefreshTokenRow).user_id == uid &&
              ({ r with is_active := false } : RefreshTokenRow).is_active) = true by
            rw [hpd]; exact Bool.false_ne_true)]
          have hp' : (r.user_id == uid && r.is_active && !dropIds.contains r.id) = false := by
            rw [hp, Bool.true_and, hcc]; rfl
          rw [if_neg (show ¬(r.user_id == uid && r.is_active && !dropIds.contains r.id) = true by
            rw [hp']; exact Bool.false_ne_true)]
          exact ih
        · have hccf : dropIds.contains r.id = false := by
            revert hcc; cases dropIds.contains r.id <;> simp
          have hcond : (r.user_id == uid && r.is_active && dropIds.contains r.id) = false := by
            rw [hccf, Bool.and_false]
          rw [if_neg (show ¬(r.user_id == uid && r.is_active && dropIds.contains r.id) = true by
            rw [hcond]; exact Bool.false_ne_true)]
          rw [if_pos hp]
          have hp' : (r.user_id == uid && r.is_active && !dropIds.contains r.id) = true := by
            rw [hp, hccf, Bool.true_and]; rfl
          rw [if_pos hp']
          rw [ih]
      · have hpf : (r.user_id == uid && r.is_active) = false := by
          revert hp; cases (r.user_id == uid && r.is_active) <;> simp
        have hcond : (r.user_id == uid && r.is_active && dropIds.contains r.id) = false := by
          rw [hpf, Bool.false_and]
        rw [if_neg (show ¬(r.user_id == uid && r.is_active && dropIds.contains r.id) = true by
          rw [hcond]; exact Bool.false_ne_true)]
        rw [if_neg (show ¬(r.user_id == uid && r.is_active) = true by
          rw [hpf]; exact Bool.false_ne_true)]
        have hp' : (r.user_id == uid && r.is_active && !dropIds.contains r.id) = false := by
          rw [hpf, Bool.false_and]
        rw [if_neg (show ¬(r.user_id == uid && r.is_active && !dropIds.contains r.id) = true by
          rw [hp']; exact Bool.false_ne_true)]
        exact ih

/-- Splitting a conjunction of row predicates into two filters. -/
theorem filter_and_split (P Q : RefreshTokenRow → Bool) (l : List RefreshTokenRow) :
    (l.filter fun r => P r && Q r) = (l.filter P).filter Q := by
  induction l with
  | nil => rfl
  | cons r t ih =>
      cases hP : P r <;> cases hQ : Q r <;> simp [List.filter_cons, hP, hQ, ih]

end Tikit

namespace Tikit

/-- If a row's id is listed among the tail ids, the tail-id membership
test succeeds; hence at most the head of the sorted active list can
survive the deactivation filter. -/
theorem length_filter_notin_tail_le_one (db1 : List RefreshTokenRow) (uid : Nat)
    (hd : RefreshTokenRow) (tl : List RefreshTokenRow)
    (hperm : (db1.filter fun r => r.user_id == uid && r.is_active).Perm (hd :: tl)) :
    (db1.filter fun r =>
        r.user_id == uid && r.is_active &&
          !((tl.map RefreshTokenRow.id).contains r.id)).length ≤ 1 := by
  rw [filter_and_split (fun r => r.user_id == uid && r.is_active)
      (fun r => !((tl.map RefreshTokenRow.id).contains r.id)) db1]
  rw [(hperm.filter (fun r => !((tl.map RefreshTokenRow.id).contains r.id))).length_eq]
  have htl : tl.filter (fun r => !((tl.map RefreshTokenRow.id).contains r.id)) = [] := by
    rw [List.filter_eq_nil_iff]
    intro r hr
    have hmem : r.id ∈ tl.map RefreshTokenRow.id := List.mem_map_of_mem _ hr
    simp [hmem]
  rw [List.filter_cons, htl]
  split <;> simp

/-- After the deactivation pass the user has at most one active row. -/
theorem countActive_deactivate_le_one (uid : Nat) (db1 : List RefreshTokenRow) :
    countActive uid (deactivateOldTokens uid db1) ≤ 1 := by
  unfold deactivateOldTokens countActive
  by_cases hlen : (activeTokensOf uid db1).length ≥ 2
  · rw [if_pos hlen]
    cases hsort : activeTokensOf uid db1 with
    | nil => rw [hsort] at hlen; simp at hlen
    | cons hd tl =>
        simp only [List.drop_succ_cons, List.drop_zero]
        rw [filter_map_deact]
        apply length_filter_notin_tail_le_one db1 uid hd tl
        have hp := (sortByCreatedDesc_perm
          (db1.filter fun r => r.user_id == uid && r.is_active)).symm
        unfold activeTokensOf at hsort
        rw [hsort] at hp
        exact hp
  · rw [if_neg hlen]
    have hlen2 : (db1.filter fun r => r.user_id == uid && r.is_active).length
        = (activeTokensOf uid db1).length :=
      ((sortByCreatedDesc_perm _).symm).length_eq
    omega

/-- Issuing a refresh token leaves the issuing user with at most two
active rows, whatever the previous state. -/
theorem countActive_create_le_two (db : List RefreshTokenRow) (uid now newId : Nat)
    (tokenHash : String) :
    countActive uid (createRefreshToken uid now newId tokenHash db) ≤ 2 := by
  unfold createRefreshToken
  have h1 := countActive_deactivate_le_one uid (cleanupExpiredTokens uid now db)
  unfold countActive at h1 ⊢
  rw [List.filter_append, List.length_append]
  have h2 : (List.filter (fun r => r.user_id == uid && r.is_active)
      ([{ id := newId, user_id := uid, token_hash := tokenHash,
          expires_at := now + refreshTokenExpireDays, created_at := now,
          is_active := true }] : List RefreshTokenRow)).length ≤ 1 :=
    (List.length_filter_le _ _).trans (by simp)
  omega

end Tikit

namespace Tikit

/-- The deactivation pass never touches another user's rows. -/
theorem filter_other_map_deact (uid v : Nat) (hne : v ≠ uid) (dropIds : List Nat)
    (db1 : List RefreshTokenRow) :
    ((db1.map fun r =>
        if r.user_id == uid && r.is_active && dropIds.contains r.id then
          { r with is_active := false }
        else r).filter fun r => r.user_id == v && r.is_active)
      = db1.filter fun r => r.user_id == v && r.is_active := by
  induction db1 with
  | nil => rfl
  | cons r t ih =>
      simp only [List.map_cons, List.filter_cons]
      by_cases hu : (r.user_id == uid) = true
      · have hvfalse : (r.user_id == v) = false := by
          simp only [beq_iff_eq] at hu
          exact beq_eq_false_iff_ne.mpr (by rw [hu]; exact Ne.symm hne)
        by_cases hc : (r.user_id == uid && r.is_active && dropIds.contains r.id) = true
        · rw [if_pos hc]
          rw [if_neg (show ¬(({ r with is_active := false } : RefreshTokenRow).user_id == v &&
              ({ r with is_active := false } : RefreshTokenRow).is_active) = true by
            simp)]
          rw [if_neg (show ¬(r.user_id == v && r.is_active) = true by
            rw [hvfalse, Bool.false_and]; exact Bool.false_ne_true)]
          exact ih
        · rw [if_neg hc]
          rw [if_neg (show ¬(r.user_id == v && r.is_active) = true by
            rw [hvfalse, Bool.false_and]; exact Bool.false_ne_true)]
          rw [if_neg (show ¬(r.user_id == v && r.is_active) = true by
            rw [hvfalse, Bool.false_and]; exact Bool.false_ne_true)]
          exact ih
      · have hu' : (r.user_id == uid) = false := by
          cases h2 : (r.user_id == uid)
          · rfl
          · exact absurd h2 hu
        have hcf : (r.user_id == uid && r.is_active && dropIds.contains r.id) = false := by
          rw [hu']; rfl
        rw [if_neg (show ¬(r.user_id == uid && r.is_active && dropIds.contains r.id) = true by
          rw [hcf]; exact Bool.false_ne_true)]
        by_cases hv2 : (r.user_id == v && r.is_active) = true
        · rw [if_pos hv2, if_pos hv2, ih]
        · rw [if_neg hv2, if_neg hv2]
          exact ih

/-- Another user's active count is unchanged by the deactivation pass. -/
theorem countActive_other_deactivate (uid v : Nat) (hne : v ≠ uid)
    (db1 : List RefreshTokenRow) :
    countActive v (deactivateOldTokens uid db1) = countActive v db1 := by
  unfold deactivateOldTokens countActive
  split
  · exact congrArg List.length (filter_other_map_deact uid v hne _ db1)
  · rfl

/-- Another user's active count is unchanged by the cleanup sweep. -/
theorem countActive_other_cleanup (uid now v : Nat) (hne : v ≠ uid)
    (db : List RefreshTokenRow) :
    countActive v (cleanupExpiredTokens uid now db) = countActive v db := by
  unfold countActive cleanupExpiredTokens
  induction db with
  | nil => rfl
  | cons r t ih =>
      rw [List.filter_cons]
      by_cases hu : (r.user_id == uid) = true
      · have hvfalse : (r.user_id == v) = false := by
          simp only [beq_iff_eq] at hu
          exact beq_eq_false_iff_ne.mpr (by rw [hu]; exact Ne.symm hne)
        have hvne : ¬(r.user_id == v && r.is_active) = true := by
          rw [hvfalse, Bool.false_and]; exact Bool.false_ne_true
        split
        · rw [List.filter_cons, if_neg hvne, List.filter_cons, if_neg hvne]
          exact ih
        · rw [List.filter_cons, if_neg hvne]
          exact ih
      · have hu' : (r.user_id == uid) = false := by
          cases h2 : (r.user_id == uid)
          · rfl
          · exact absurd h2 hu
        rw [if_pos (show (!(r.user_id == uid && r.expires_at < now) &&
            !(r.user_id == uid && !r.is_active && r.created_at < now)) = true by
          rw [hu']; rfl)]
        by_cases hv2 : (r.user_id == v && r.is_active) = true
        · rw [List.filter_cons, if_pos hv2, List.filter_cons, if_pos hv2,
            List.length_cons, List.length_cons, ih]
        · rw [List.filter_cons, if_neg hv2, List.filter_cons, if_neg hv2]
          exact ih

/-- Issuing a refresh token for `uid` leaves every other user's active
count unchanged. -/
theorem countActive_create_other (db : List RefreshTokenRow) (uid now newId : Nat)
    (tokenHash : String) (v : Nat) (hne : v ≠ uid) :
    countActive v (createRefreshToken uid now newId tokenHash db) = countActive v db := by
  have hbe : (uid == v) = false := beq_eq_false_iff_ne.mpr (Ne.symm hne)
  have hnew : List.filter (fun r => r.user_id == v && r.is_active)
      [({ id := newId, user_id := uid, token_hash := tokenHash,
          expires_at := now + refreshTokenExpireDays, created_at := now,
          is_active := true } : RefreshTokenRow)] = [] := by
    simp [hbe]
  calc countActive v (createRefreshToken uid now newId tokenHash db)
      = countActive v (deactivateOldTokens uid (cleanupExpiredTokens uid now db)) := by
        unfold createRefreshToken countActive
        rw [List.filter_append, hnew, List.append_nil]
    _ = countActive v (cleanupExpiredTokens uid now db) :=
        countActive_other_deactivate uid v hne _
    _ = countActive v db := countActive_other_cleanup uid now v hne db

end Tikit

namespace Tikit

/-- The per-user bound is preserved along any sequence of issues. -/
theorem countActive_issueSeqFrom_le_two :
    ∀ (ops : List (Nat × Nat × String)) (nextId : Nat) (db : List RefreshTokenRow),
      (∀ u, countActive u db ≤ 2) →
      ∀ u, countActive u (issueSeqFrom nextId db ops) ≤ 2 := by
  intro ops
  induction ops with
  | nil =>
      intro nextId db h u
      exact h u
  | cons op ops ih =>
      intro nextId db h u
      obtain ⟨uid, now, hh⟩ := op
      rw [issueSeqFrom]
      refine ih (nextId + 1) (createRefreshToken uid now nextId hh db) ?_ u
      intro u'
      by_cases hu : u' = uid
      · subst hu
        exact countActive_create_le_two db u' now nextId hh
      · rw [countActive_create_other db uid now nextId hh u' hu]
        exact h u'

/-- C3: (i) after any sequence of token issues starting from an empty
table, every user has at most 2 active refresh tokens; (ii) a single
issue leaves the issuing user with at most 2 active rows whatever the
prior state, and (iii) never changes another user's active rows; (iv) in
the three-login scenario, after T3 is issued exactly T2 and T3 are
active, T1 is inactive, and refreshing with T1 is answered 401. -/
theorem C3_refresh_rotation_cap :
    (∀ (ops : List (Nat × Nat × String)) (u : Nat),
      countActive u (issueSeq ops) ≤ 2) ∧
    (∀ (db : List RefreshTokenRow) (uid now newId : Nat) (tokenHash : String),
      countActive uid (createRefreshToken uid now newId tokenHash db) ≤ 2) ∧
    (∀ (db : List RefreshTokenRow) (uid now newId : Nat) (tokenHash : String) (v : Nat),
      v ≠ uid →
      countActive v (createRefreshToken uid now newId tokenHash db) = countActive v db) ∧
    (((issueSeq [(1, 1, "h1"), (1, 2, "h2"), (1, 3, "h3")]).filter
        (fun r => r.is_active)).map RefreshTokenRow.token_hash = ["h2", "h3"] ∧
     ((issueSeq [(1, 1, "h1"), (1, 2, "h2"), (1, 3, "h3")]).find?
        (fun r => r.token_hash == "h1")).map RefreshTokenRow.is_active = some false ∧
     refreshEndpointStatus "h1" 4 (issueSeq [(1, 1, "h1"), (1, 2, "h2"), (1, 3, "h3")]) = 401) := by
  refine ⟨?_, ?_, ?_, by decide, by decide, by decide⟩
  · intro ops u
    exact countActive_issueSeqFrom_le_two ops 0 [] (fun _ => by simp [countActive]) u
  · intro db uid now newId tokenHash
    exact countActive_create_le_two db uid now newId tokenHash
  · intro db uid now newId tokenHash v hne
    exact countActive_create_other db uid now newId tokenHash v hne

/-- Witness for C3: issuing for user 1 does not change user 2's active
count on a concrete table. -/
theorem C3_refresh_rotation_cap_witness :
    (2 : Nat) ≠ 1 ∧
    countActive 2 (createRefreshToken 1 5 9 "hx"
        [⟨0, 2, "hy", 40, 1, true⟩]) = countActive 2 [⟨0, 2, "hy", 40, 1, true⟩] :=
  ⟨by decide,
   C3_refresh_rotation_cap.2.2.1 [⟨0, 2, "hy", 40, 1, true⟩] 1 5 9 "hx" 2 (by decide)⟩

end Tikit
